import Mathlib

/-!
Shallow embedding of the persistence layer of the Project-Management-App
repository (`database.py`, plus the project-creation route of `app.py`).

The MongoDB database is modelled as three collections of documents, each a
list of `(id, document)` pairs, together with a counter supplying fresh ids.
Machine ids (BSON ObjectIds) are modelled as `Nat`; datetimes as `Nat`
timestamps passed explicitly as a `now` argument (Python reads the clock
with `datetime.now`); calendar dates as `Int`.  The float field
`estimated_hours` is modelled as `Option Int` — no claim computes with its
value.  Python's fallible operations return `Except String`; `ValueError`
is the error case.  Arguments whose Python value may fail `int(...)`
conversion are modelled as `Option Int` (`none` = not convertible).
-/

namespace PMApp

/-- A Project document, as inserted by `add_project` (database.py:65). -/
structure ProjectDoc where
  name : String
  description : String
  status : String
  start_date : Option Int
  end_date : Option Int
  created_at : Nat
  updated_at : Nat
deriving DecidableEq, Repr

/-- A Task document, as inserted by `add_task` (database.py:143). -/
structure TaskDoc where
  project_id : Nat
  name : String
  description : String
  status : String
  priority : String
  due_date : Option Int
  estimated_hours : Option Int
  created_at : Nat
  updated_at : Nat
  total_logged_minutes : Int
deriving DecidableEq, Repr

/-- A Time Log document, as inserted by `add_time_log` (database.py:261). -/
structure LogDoc where
  task_id : Nat
  log_date : Int
  duration_minutes : Int
  notes : String
  created_at : Nat
deriving DecidableEq, Repr

/-- The MongoDB database state: the three collections used by the app,
each a list of `(ObjectId, document)` pairs, plus the id counter from which
MongoDB draws fresh `_id`s for `insert_one`. -/
structure DB where
  projects : List (Nat × ProjectDoc)
  tasks : List (Nat × TaskDoc)
  time_logs : List (Nat × LogDoc)
  nextId : Nat
deriving DecidableEq, Repr

/-- `find_one` on an `_id`: first document whose id matches. -/
def findDoc {α : Type} (id : Nat) (coll : List (Nat × α)) : Option α :=
  match coll with
  | [] => none
  | (i, d) :: rest => if i = id then some d else findDoc id rest

/-- Well-formedness of a database state: every id already present in a
collection (and every `task_id` reference held by a Time Log) is below the
fresh-id counter, so `insert_one` never reuses a live id. -/
def DB.wf (db : DB) : Prop :=
  (∀ p ∈ db.projects, p.1 < db.nextId) ∧
  (∀ t ∈ db.tasks, t.1 < db.nextId) ∧
  (∀ l ∈ db.time_logs, l.1 < db.nextId ∧ l.2.task_id < db.nextId)

instance (db : DB) : Decidable db.wf := by
  unfold DB.wf; infer_instance

/-! ## Project operations (database.py:65-139) -/

/-- `add_project` (database.py:65-77): builds the document and inserts it.
No validation of any kind is performed by this function. -/
def add_project (db : DB) (now : Nat) (name : String) (description : String)
    (status : String) (start_date : Option Int) (end_date : Option Int) :
    DB × Nat :=
  let doc : ProjectDoc :=
    { name := name, description := description, status := status,
      start_date := start_date, end_date := end_date,
      created_at := now, updated_at := now }
  ({ db with projects := db.projects ++ [(db.nextId, doc)],
             nextId := db.nextId + 1 }, db.nextId)

/-- The partial-fields mapping accepted by `update_project`
(database.py:92): a Python dict over the Project schema fields; `none`
means the key is absent from the dict.  Date values are modelled
already-converted (the `strptime` branch of the code only coerces string
inputs to datetimes). -/
structure ProjectUpdates where
  name : Option String := none
  description : Option String := none
  status : Option String := none
  start_date : Option (Option Int) := none
  end_date : Option (Option Int) := none
deriving DecidableEq, Repr

/-- The effect of MongoDB `$set` with the given update dict plus the
`updated_at` refresh the code always adds (database.py:110-114). -/
def applyProjectUpdates (p : ProjectDoc) (u : ProjectUpdates) (now : Nat) :
    ProjectDoc :=
  { name := u.name.getD p.name,
    description := u.description.getD p.description,
    status := u.status.getD p.status,
    start_date := u.start_date.getD p.start_date,
    end_date := u.end_date.getD p.end_date,
    created_at := p.created_at,
    updated_at := now }

/-- `update_project` (database.py:92-115): `update_one` with `$set` of the
provided fields plus `updated_at := now`; returns `modified_count > 0`,
i.e. whether the stored document actually changed. -/
def update_project (db : DB) (now : Nat) (project_id : Nat)
    (u : ProjectUpdates) : DB × Bool :=
  match findDoc project_id db.projects with
  | none => (db, false)
  | some p =>
    let p' := applyProjectUpdates p u now
    ({ db with projects :=
        db.projects.map (fun q => if q.1 = project_id then (q.1, p') else q) },
     decide (p' ≠ p))

/-- `delete_project` (database.py:117-139): collect the ids of the Tasks of
the project; if any, delete their Time Logs, then the Tasks; finally delete
the Project document, returning `deleted_count > 0`. -/
def delete_project (db : DB) (project_id : Nat) : DB × Bool :=
  let task_ids :=
    (db.tasks.filter (fun t => t.2.project_id = project_id)).map (·.1)
  let db1 :=
    if task_ids.isEmpty then db
    else
      let dbA := { db with time_logs :=
        db.time_logs.filter (fun l => ¬ task_ids.contains l.2.task_id) }
      { dbA with tasks :=
        dbA.tasks.filter (fun t => ¬ t.2.project_id = project_id) }
  let existed := db1.projects.any (fun p => p.1 = project_id)
  ({ db1 with projects := db1.projects.filter (fun p => ¬ p.1 = project_id) },
   existed)

/-! ## Task operations (database.py:143-225) -/

/-- `add_task` (database.py:143-162): builds the Task document with
`total_logged_minutes` initialised to `0` and inserts it. -/
def add_task (db : DB) (now : Nat) (project_id : Nat) (name : String)
    (description : String) (status : String) (priority : String)
    (due_date : Option Int) (estimated_hours : Option Int) : DB × Nat :=
  let doc : TaskDoc :=
    { project_id := project_id, name := name, description := description,
      status := status, priority := priority, due_date := due_date,
      estimated_hours := estimated_hours,
      created_at := now, updated_at := now, total_logged_minutes := 0 }
  ({ db with tasks := db.tasks ++ [(db.nextId, doc)],
             nextId := db.nextId + 1 }, db.nextId)

/-- The partial-fields mapping accepted by `update_task`
(database.py:181): a Python dict over the Task schema fields; `none` means
the key is absent.  The dict may carry a `total_logged_minutes` key — the
code passes whatever dict it receives straight to `$set`. -/
structure TaskUpdates where
  name : Option String := none
  description : Option String := none
  status : Option String := none
  priority : Option String := none
  due_date : Option (Option Int) := none
  estimated_hours : Option (Option Int) := none
  total_logged_minutes : Option Int := none
deriving DecidableEq, Repr

/-- The effect of MongoDB `$set` with the given update dict plus the
`updated_at` refresh (database.py:202-206).  Every key present in the dict
is written, `total_logged_minutes` included. -/
def applyTaskUpdates (t : TaskDoc) (u : TaskUpdates) (now : Nat) : TaskDoc :=
  { project_id := t.project_id,
    name := u.name.getD t.name,
    description := u.description.getD t.description,
    status := u.status.getD t.status,
    priority := u.priority.getD t.priority,
    due_date := u.due_date.getD t.due_date,
    estimated_hours := u.estimated_hours.getD t.estimated_hours,
    created_at := t.created_at,
    updated_at := now,
    total_logged_minutes := u.total_logged_minutes.getD t.total_logged_minutes }

/-- `update_task` (database.py:181-207): `update_one` with `$set` of the
provided fields plus `updated_at := now`; returns `modified_count > 0`. -/
def update_task (db : DB) (now : Nat) (task_id : Nat) (u : TaskUpdates) :
    DB × Bool :=
  match findDoc task_id db.tasks with
  | none => (db, false)
  | some t =>
    let t' := applyTaskUpdates t u now
    ({ db with tasks :=
        db.tasks.map (fun q => if q.1 = task_id then (q.1, t') else q) },
     decide (t' ≠ t))

/-- `delete_task` (database.py:209-225): delete all Time Logs with this
`task_id`, then delete the Task document, returning `deleted_count > 0` of
the Task deletion. -/
def delete_task (db : DB) (task_id : Nat) : DB × Bool :=
  let db1 := { db with time_logs :=
    db.time_logs.filter (fun l => ¬ l.2.task_id = task_id) }
  let existed := db1.tasks.any (fun t => t.1 = task_id)
  ({ db1 with tasks := db1.tasks.filter (fun t => ¬ t.1 = task_id) }, existed)

/-! ## Time Log operations (database.py:230-306) -/

/-- The document transformation performed by the `$inc` step of
`add_time_log` (database.py:272-275): the entry whose id is `task_id` has
its `total_logged_minutes` raised by `d`; every other entry is untouched. -/
def incTask (task_id : Nat) (d : Int) (q : Nat × TaskDoc) : Nat × TaskDoc :=
  if q.1 = task_id then
    (q.1, { q.2 with
      total_logged_minutes := q.2.total_logged_minutes + d })
  else q

/-- `add_time_log` (database.py:230-284).  `duration_minutes` is `none`
when Python's `int(...)` conversion fails.  The order mirrors the source:
default/normalise `log_date`, validate the duration (raising before any
write), insert the Time Log document, then `$inc` the parent Task's
`total_logged_minutes` via `update_one` — which matches zero documents when
the Task does not exist, in which case the code only prints a warning and
still returns the new log's id. -/
def add_time_log (db : DB) (now : Nat) (task_id : Nat)
    (duration_minutes : Option Int) (log_date : Option Int) (notes : String) :
    Except String (DB × Nat) :=
  let ld : Int := log_date.getD (Int.ofNat now)
  match duration_minutes with
  | none => .error "Invalid duration provided (must be a positive integer)."
  | some d =>
    if d ≤ 0 then
      .error "Invalid duration provided (must be a positive integer)."
    else
      let doc : LogDoc :=
        { task_id := task_id, log_date := ld, duration_minutes := d,
          notes := notes, created_at := now }
      let db1 := { db with time_logs := db.time_logs ++ [(db.nextId, doc)],
                           nextId := db.nextId + 1 }
      let db2 := { db1 with tasks := db1.tasks.map (incTask task_id d) }
      .ok (db2, db.nextId)

/-- `get_total_logged_time_for_task` (database.py:294-306): aggregation
matching `task_id` and summing `duration_minutes`; the pipeline yields no
group when no document matches, and the code returns `0` in that case. -/
def get_total_logged_time_for_task (db : DB) (task_id : Nat) : Int :=
  let matched := db.time_logs.filter (fun l => l.2.task_id = task_id)
  if matched.isEmpty then 0
  else (matched.map (fun l => l.2.duration_minutes)).sum

/-! ## Connection management (database.py:11-61) -/

/-- The module-level connection state of database.py: the globals
`_client` and `_db`, each `none` until a connection succeeds (handles are
modelled as `Unit`). -/
structure ConnState where
  client : Option Unit
  db : Option Unit
deriving DecidableEq, Repr

/-- `connect_db` (database.py:11-48).  `canConnect` models whether the
MongoDB server is reachable within the timeout.  When a client already
exists the function is a no-op; otherwise it attempts the connection,
setting both globals on success and resetting them to `None` and raising
`ConnectionError` on failure. -/
def connect_db (canConnect : Bool) (s : ConnState) :
    Except String ConnState :=
  if s.client.isSome then .ok s
  else if canConnect then .ok { client := some (), db := some () }
  else .error "Could not connect to MongoDB"

/-- `get_db` (database.py:50-61): returns the database handle; if `_db` is
`None` it raises `ConnectionError` directly — the reconnection attempt in
the source is commented out, so no connect is performed. -/
def get_db (s : ConnState) : Except String Unit :=
  if s.db.isNone then
    .error "Database is not connected. Check initial connection logs."
  else .ok ()

/-! ## The project-creation web route (app.py:216-255) -/

/-- Python's `str.strip()` with no argument: drop leading and trailing
whitespace (modelled structurally over the character list). -/
def pyStrip (s : String) : String :=
  String.mk
    (((s.toList.dropWhile Char.isWhitespace).reverse.dropWhile
      Char.isWhitespace).reverse)

/-- The `add_project` route handler of app.py (lines 216-255), restricted
to its validation and store-call logic: rejects an empty or whitespace-only
name (`not project_name or not project_name.strip()`), and rejects
`end_date < start_date` when both dates parse, in either case flashing an
error and creating nothing (`none`); otherwise calls the store's
`add_project` with the stripped name. -/
def route_add_project (db : DB) (now : Nat) (name : String)
    (description : String) (status : String) (start_date : Option Int)
    (end_date : Option Int) : DB × Option Nat :=
  if pyStrip name = "" then (db, none)
  else
    match start_date, end_date with
    | some s, some e =>
      if e < s then (db, none)
      else
        let r := add_project db now (pyStrip name) description status
          start_date end_date
        (r.1, some r.2)
    | _, _ =>
      let r := add_project db now (pyStrip name) description status
        start_date end_date
      (r.1, some r.2)

/-! ## Derived notions used to state the claims -/

/-- The sum of `duration_minutes` over all Time Log documents of a list
whose `task_id` equals `tid` — the mathematical value the aggregation of
`get_total_logged_time_for_task` computes, and the value the Task invariant
compares the stored aggregate against. -/
def logsSumL (logs : List (Nat × LogDoc)) (tid : Nat) : Int :=
  ((logs.filter (fun l => l.2.task_id = tid)).map
    (fun l => l.2.duration_minutes)).sum

/-- The denormalised-aggregate invariant for the Task with id `tid`: the
Task is present and its stored `total_logged_minutes` equals the sum of the
durations of its Time Logs. -/
def aggOk (db : DB) (tid : Nat) : Prop :=
  ∃ t, findDoc tid db.tasks = some t ∧
    t.total_logged_minutes = logsSumL db.time_logs tid

/-- Runs a sequence of `add_time_log` calls for the Task `tid`; each list
entry supplies the clock reading, the duration argument, the `log_date`
argument and the notes of one call.  A call that raises leaves the database
unchanged (the Python exception propagates before any write). -/
def runLogs (db : DB) (tid : Nat)
    (ops : List (Nat × Option Int × Option Int × String)) : DB :=
  match ops with
  | [] => db
  | (now, d, ld, notes) :: rest =>
    match add_time_log db now tid d ld notes with
    | .ok r => runLogs r.1 tid rest
    | .error _ => runLogs db tid rest

/-! ## Concrete database states used as witnesses -/

/-- The empty database state. -/
def dbEmpty : DB := { projects := [], tasks := [], time_logs := [], nextId := 0 }

/-- The Task document `add_task` builds (database.py:149-160). -/
def newTaskDoc (now pid : Nat) (nm ds st pr : String) (dd eh : Option Int) :
    TaskDoc :=
  { project_id := pid, name := nm, description := ds, status := st,
    priority := pr, due_date := dd, estimated_hours := eh,
    created_at := now, updated_at := now, total_logged_minutes := 0 }

/-- A sample Project document. -/
def projLaunch : ProjectDoc :=
  { name := "Launch", description := "", status := "Planning",
    start_date := none, end_date := none, created_at := 0, updated_at := 0 }

/-- A sample Task document of Project 0 with a zero aggregate. -/
def taskDesign : TaskDoc :=
  { project_id := 0, name := "Design", description := "", status := "To Do",
    priority := "Medium", due_date := none, estimated_hours := none,
    created_at := 0, updated_at := 0, total_logged_minutes := 0 }

/-- A sample Time Log document of Task 1. -/
def logThirty : LogDoc :=
  { task_id := 1, log_date := 0, duration_minutes := 30, notes := "",
    created_at := 0 }

/-- A database holding one Project (id 0). -/
def dbProj : DB :=
  { projects := [(0, projLaunch)], tasks := [], time_logs := [], nextId := 1 }

/-- A database holding one Project (id 0) and one Task (id 1) of that
Project, with no Time Logs and a zero aggregate. -/
def dbTask : DB :=
  { projects := [(0, projLaunch)], tasks := [(1, taskDesign)],
    time_logs := [], nextId := 2 }

/-- A database with a Project (id 0), a Task (id 1) of that Project and a
Time Log (id 2) of that Task; the Task's aggregate matches the log. -/
def dbCascade : DB :=
  { projects := [(0, projLaunch)],
    tasks := [(1, { taskDesign with total_logged_minutes := 30 })],
    time_logs := [(2, logThirty)], nextId := 3 }

/-- The Time Log document `add_time_log` builds (database.py:261-267). -/
def newLogDoc (tid : Nat) (k ld : Int) (s : String) (now : Nat) : LogDoc :=
  { task_id := tid, log_date := ld, duration_minutes := k, notes := s,
    created_at := now }

/-- The Project document created by the C4 counterexample call. -/
def projEmptyName : ProjectDoc :=
  { name := "", description := "", status := "Planning", start_date := none,
    end_date := none, created_at := 0, updated_at := 0 }

/-- The `add_task` call used by the C2 witness. -/
def addTaskW : DB × Nat :=
  add_task dbEmpty 0 1 "Design" "" "To Do" "Medium" none none

/-- The C2 witness state: two `add_time_log` calls after `addTaskW`. -/
def runLogsW : DB :=
  runLogs addTaskW.1 addTaskW.2 [(1, some 90, none, ""), (2, some 30, none, "")]

/-- The initial module connection state: no client, no database handle. -/
def connNone : ConnState := { client := none, db := none }

/-! ## Helper lemmas about `findDoc` and `logsSumL` -/

/-- Unfolding equation of `findDoc` on a cons cell. -/
theorem findDoc_cons {α : Type} (i k : Nat) (v : α) (rest : List (Nat × α)) :
    findDoc i ((k, v) :: rest) = if k = i then some v else findDoc i rest :=
  rfl

/-- Updating (key-preservingly) the entries with key `tid` commutes with
`findDoc`. -/
theorem findDoc_map_updIf {α : Type} (tid tid' : Nat) (g : α → α)
    (l : List (Nat × α)) :
    findDoc tid' (l.map (fun q => if q.1 = tid then (q.1, g q.2) else q)) =
      if tid' = tid then (findDoc tid l).map g else findDoc tid' l := by
  induction l with
  | nil => by_cases h : tid' = tid <;> simp [findDoc, h]
  | cons hd tl ih =>
    obtain ⟨k, v⟩ := hd
    by_cases h1 : k = tid
    · subst h1
      by_cases h2 : tid' = k
      · subst h2
        simp [findDoc_cons, ih]
      · have h3 : ¬ k = tid' := fun e => h2 e.symm
        simp [findDoc_cons, h2, h3, ih]
    · by_cases h2 : tid' = tid
      · subst h2
        simp [findDoc_cons, h1, ih]
      · by_cases h3 : k = tid'
        · simp [findDoc_cons, h1, h2, h3]
        · simp [findDoc_cons, h1, h2, h3, ih]

/-- Mapping a key-`tid` update over a list with no key-`tid` entry is the
identity. -/
theorem map_updIf_of_findDoc_none {α : Type} (tid : Nat) (g : α → α)
    (l : List (Nat × α)) (h : findDoc tid l = none) :
    l.map (fun q => if q.1 = tid then (q.1, g q.2) else q) = l := by
  induction l with
  | nil => simp
  | cons hd tl ih =>
    unfold findDoc at h
    by_cases h1 : hd.1 = tid
    · simp [h1] at h
    · simp only [h1, if_neg, ite_false, List.map_cons]
      refine congrArg (hd :: ·) (ih ?_)
      simpa [h1] using h

/-- A document appended behind entries with other keys is found. -/
theorem findDoc_append_fresh {α : Type} (i : Nat) (d : α)
    (l : List (Nat × α)) (h : ∀ q ∈ l, q.1 ≠ i) :
    findDoc i (l ++ [(i, d)]) = some d := by
  induction l with
  | nil => simp [findDoc]
  | cons hd tl ih =>
    have h1 : hd.1 ≠ i := h hd (by simp)
    simp only [List.cons_append, findDoc, h1, ite_false, if_neg]
    exact ih (fun q hq => h q (by simp [hq]))

/-- `logsSumL` distributes over list append. -/
theorem logsSumL_append (xs ys : List (Nat × LogDoc)) (tid : Nat) :
    logsSumL (xs ++ ys) tid = logsSumL xs tid + logsSumL ys tid := by
  simp [logsSumL, List.filter_append]

/-- `logsSumL` of a one-document list. -/
theorem logsSumL_single (i : Nat) (d : LogDoc) (tid : Nat) :
    logsSumL [(i, d)] tid =
      if d.task_id = tid then d.duration_minutes else 0 := by
  by_cases h : d.task_id = tid <;> simp [logsSumL, h]

/-- `logsSumL` vanishes when no document of the list references `tid`. -/
theorem logsSumL_eq_zero (logs : List (Nat × LogDoc)) (tid : Nat)
    (h : ∀ l ∈ logs, l.2.task_id ≠ tid) : logsSumL logs tid = 0 := by
  have hf : logs.filter (fun l => l.2.task_id = tid) = [] := by
    rw [List.filter_eq_nil_iff]
    intro a ha
    simp [h a ha]
  simp [logsSumL, hf]

/-- The aggregation of `get_total_logged_time_for_task` computes exactly
`logsSumL` (the empty-pipeline branch returns the empty sum). -/
theorem get_total_eq_logsSumL (db : DB) (tid : Nat) :
    get_total_logged_time_for_task db tid = logsSumL db.time_logs tid := by
  unfold get_total_logged_time_for_task logsSumL
  by_cases h : (db.time_logs.filter (fun l => l.2.task_id = tid)).isEmpty
  · have : db.time_logs.filter (fun l => l.2.task_id = tid) = [] := by
      simpa [List.isEmpty_iff] using h
    simp [h, this]
  · simp [h]

/-! ## Behaviour of `add_time_log` and preservation of the aggregate -/

/-- Characterisation of a successful `add_time_log` call: the Time Log
document is appended and the `$inc` update is mapped over the tasks. -/
theorem add_time_log_ok (db : DB) (now tid : Nat) (k : Int) (ld : Option Int)
    (s : String) (hk : 0 < k) :
    add_time_log db now tid (some k) ld s =
      .ok ({ projects := db.projects,
             tasks := db.tasks.map (incTask tid k),
             time_logs := db.time_logs ++ [(db.nextId,
               { task_id := tid, log_date := ld.getD (Int.ofNat now),
                 duration_minutes := k, notes := s, created_at := now })],
             nextId := db.nextId + 1 }, db.nextId) := by
  have h : ¬ k ≤ 0 := not_le.mpr hk
  simp [add_time_log, h]

/-- `findDoc` after the `$inc` map: the target Task's view gains `k`, every
other id's view is unchanged. -/
theorem findDoc_map_incTask (tid tid' : Nat) (k : Int)
    (l : List (Nat × TaskDoc)) :
    findDoc tid' (l.map (incTask tid k)) =
      if tid' = tid then
        (findDoc tid l).map (fun u => { u with
          total_logged_minutes := u.total_logged_minutes + k })
      else findDoc tid' l :=
  findDoc_map_updIf tid tid'
    (fun u : TaskDoc =>
      { u with total_logged_minutes := u.total_logged_minutes + k }) l

/-- The `$inc` map is the identity when the target Task is absent. -/
theorem map_incTask_of_none (tid : Nat) (k : Int) (l : List (Nat × TaskDoc))
    (h : findDoc tid l = none) : l.map (incTask tid k) = l :=
  map_updIf_of_findDoc_none tid
    (fun u : TaskDoc =>
      { u with total_logged_minutes := u.total_logged_minutes + k }) l h

/-- A successful `add_time_log` call preserves the aggregate invariant of
its target Task: the inserted log raises the log sum by the duration and
the `$inc` raises the stored aggregate by the same duration. -/
theorem aggOk_add_time_log (db : DB) (now tid : Nat) (d ld : Option Int)
    (s : String) (r : DB × Nat) (h : aggOk db tid)
    (hok : add_time_log db now tid d ld s = .ok r) : aggOk r.1 tid := by
  obtain ⟨t, hfind, htot⟩ := h
  match d with
  | none => simp [add_time_log] at hok
  | some k =>
    by_cases hk : k ≤ 0
    · simp [add_time_log, hk] at hok
    · rw [add_time_log_ok db now tid k ld s (lt_of_not_le hk)] at hok
      obtain rfl := (Except.ok.inj hok).symm
      refine ⟨{ t with total_logged_minutes := t.total_logged_minutes + k },
        ?_, ?_⟩
      · show findDoc tid (db.tasks.map (incTask tid k)) =
          some { t with total_logged_minutes := t.total_logged_minutes + k }
        rw [findDoc_map_incTask tid tid k db.tasks]
        simp [hfind]
      · show t.total_logged_minutes + k =
          logsSumL (db.time_logs ++ [(db.nextId,
            { task_id := tid, log_date := ld.getD (Int.ofNat now),
              duration_minutes := k, notes := s, created_at := now })]) tid
        rw [logsSumL_append, logsSumL_single]
        simp [htot]

/-- Folding any sequence of `add_time_log` calls for a Task preserves the
aggregate invariant of that Task (failed calls leave the state unchanged). -/
theorem aggOk_runLogs (tid : Nat)
    (ops : List (Nat × Option Int × Option Int × String)) :
    ∀ db : DB, aggOk db tid → aggOk (runLogs db tid ops) tid := by
  induction ops with
  | nil => intro db h; exact h
  | cons op rest ih =>
    intro db h
    obtain ⟨now, d, ld, notes⟩ := op
    unfold runLogs
    cases hr : add_time_log db now tid d ld notes with
    | ok r => exact ih r.1 (aggOk_add_time_log db now tid d ld notes r h hr)
    | error e => exact ih db h

/-- `add_task` establishes the aggregate invariant for the new Task: the
stored aggregate is initialised to `0` and, the fresh id being unused, no
Time Log references it. -/
theorem add_task_establishes_aggOk (db : DB) (hwf : db.wf) (now pid : Nat)
    (nm ds st pr : String) (dd eh : Option Int) :
    aggOk (add_task db now pid nm ds st pr dd eh).1
      (add_task db now pid nm ds st pr dd eh).2 := by
  obtain ⟨hp, ht, hl⟩ := hwf
  refine ⟨newTaskDoc now pid nm ds st pr dd eh, ?_, ?_⟩
  · show findDoc db.nextId
      (db.tasks ++ [(db.nextId, newTaskDoc now pid nm ds st pr dd eh)]) =
      some (newTaskDoc now pid nm ds st pr dd eh)
    exact findDoc_append_fresh _ _ _ (fun q hq => Nat.ne_of_lt (ht q hq))
  · show (0 : Int) = logsSumL db.time_logs db.nextId
    exact (logsSumL_eq_zero _ _ (fun l hl2 => Nat.ne_of_lt (hl l hl2).2)).symm

/-! ## Claim theorems -/

/-- C1 (counterexample): calling `add_time_log` with a positive duration
and a task id for which no Task document exists (the database is empty)
does not fail with `ValidationError`/`NotFound`: it returns the new log's
id and the orphaned Time Log document with that `task_id` is inserted. -/
theorem C1_counterexample :
    dbEmpty.tasks = [] ∧
    add_time_log dbEmpty 0 7 (some 30) none "" =
      .ok ({ projects := [], tasks := [],
             time_logs := [(0, newLogDoc 7 30 0 "" 0)], nextId := 1 }, 0) := by
  exact ⟨rfl, rfl⟩

/-- C1 (amended): `add_time_log` never checks that the parent Task exists:
with a valid task id and a positive duration it always inserts the Time Log
and returns its id; when no Task document matches, the `$inc` update
matches nothing, the code only prints a warning, and the orphaned log is
silently left in place with the Task collection unchanged. -/
theorem C1_add_time_log_orphan (db : DB) (now tid : Nat) (k : Int)
    (ld : Option Int) (s : String) (htask : findDoc tid db.tasks = none)
    (hk : 0 < k) :
    ∃ db', add_time_log db now tid (some k) ld s = .ok (db', db.nextId) ∧
      db'.tasks = db.tasks ∧
      db'.time_logs =
        db.time_logs ++ [(db.nextId, newLogDoc tid k (ld.getD (Int.ofNat now)) s now)] := by
  have hok := add_time_log_ok db now tid k ld s hk
  refine ⟨_, hok, ?_, ?_⟩
  · exact map_incTask_of_none tid k db.tasks htask
  · rfl

/-- Witness for C1's amended theorem: logging 30 minutes against task id 7
in a database whose only content is one Project. -/
theorem C1_witness :
    findDoc 7 dbProj.tasks = none ∧ (0 : Int) < 30 ∧
    (∃ db', add_time_log dbProj 1 7 (some 30) none "" = .ok (db', dbProj.nextId) ∧
      db'.tasks = dbProj.tasks ∧
      db'.time_logs = dbProj.time_logs ++ [(dbProj.nextId, newLogDoc 7 30 1 "" 1)]) :=
  ⟨rfl, by decide, C1_add_time_log_orphan dbProj 1 7 30 none "" rfl (by decide)⟩

/-- C2: a Task created by `add_task` starts with a zero aggregate, and
after any finite sequence of `add_time_log` calls for it (failed calls
change nothing, and no deletes are interleaved) the stored
`total_logged_minutes` equals `get_total_logged_time_for_task`, which
equals the sum of `duration_minutes` over all Time Log documents whose
`task_id` is the Task's id. -/
theorem C2_aggregate_invariant (db : DB) (hwf : db.wf) (now pid : Nat)
    (nm ds st pr : String) (dd eh : Option Int)
    (ops : List (Nat × Option Int × Option Int × String)) (db1 db2 : DB)
    (tid : Nat) (hcreate : add_task db now pid nm ds st pr dd eh = (db1, tid))
    (hrun : runLogs db1 tid ops = db2) :
    ∃ t, findDoc tid db2.tasks = some t ∧
      t.total_logged_minutes = get_total_logged_time_for_task db2 tid ∧
      get_total_logged_time_for_task db2 tid = logsSumL db2.time_logs tid := by
  have h1 := add_task_establishes_aggOk db hwf now pid nm ds st pr dd eh
  rw [hcreate] at h1
  have h2 := aggOk_runLogs tid ops db1 h1
  rw [hrun] at h2
  obtain ⟨t, hf, ht⟩ := h2
  refine ⟨t, hf, ?_, get_total_eq_logsSumL db2 tid⟩
  rw [get_total_eq_logsSumL]
  exact ht

/-- Witness for C2: create a Task in the empty database and log 90 and
then 30 minutes against it. -/
theorem C2_witness :
    dbEmpty.wf ∧
    (∃ t, findDoc addTaskW.2 runLogsW.tasks = some t ∧
      t.total_logged_minutes = get_total_logged_time_for_task runLogsW addTaskW.2 ∧
      get_total_logged_time_for_task runLogsW addTaskW.2 =
        logsSumL runLogsW.time_logs addTaskW.2) :=
  ⟨by decide, C2_aggregate_invariant dbEmpty (by decide) 0 1 "Design" ""
    "To Do" "Medium" none none [(1, some 90, none, ""), (2, some 30, none, "")]
    addTaskW.1 runLogsW addTaskW.2 rfl rfl⟩

/-- C6: `delete_task` deletes the Task's Time Logs first and then the Task
document; afterwards no Time Log with that `task_id` (and no Task with
that id) remains, and the returned Boolean is `true` exactly when the Task
document was present, i.e. was removed. -/
theorem C6_delete_task_cascade (db : DB) (tid : Nat) :
    (∀ l ∈ (delete_task db tid).1.time_logs, l.2.task_id ≠ tid) ∧
    (∀ t ∈ (delete_task db tid).1.tasks, t.1 ≠ tid) ∧
    (delete_task db tid).2 = db.tasks.any (fun t => t.1 = tid) := by
  refine ⟨?_, ?_, rfl⟩
  · intro l hl
    have h2 := (List.mem_filter.mp hl).2
    simpa using h2
  · intro t ht
    have h2 := (List.mem_filter.mp ht).2
    simpa using h2

/-- Witness for C6: deleting Task 1 of `dbCascade` reports `true` exactly
as the Task collection contains id 1. -/
theorem C6_witness :
    (delete_task dbCascade 1).2 = dbCascade.tasks.any (fun t => t.1 = 1) :=
  (C6_delete_task_cascade dbCascade 1).2.2

/-- C7: `add_time_log` rejects a duration that does not convert to an
integer (`none`) or converts to a non-positive integer, raising
`ValueError` before the insert and before the `$inc`; the operation
returns only the error, leaving storage untouched. -/
theorem C7_add_time_log_invalid_duration (db : DB) (now tid : Nat)
    (d ld : Option Int) (s : String)
    (hd : d = none ∨ ∃ k, d = some k ∧ k ≤ 0) :
    add_time_log db now tid d ld s =
      .error "Invalid duration provided (must be a positive integer)." := by
  rcases hd with rfl | ⟨k, rfl, hk⟩
  · rfl
  · simp [add_time_log, hk]

/-- Witness for C7: logging 0 minutes against the existing Task 1 fails. -/
theorem C7_witness :
    ((some 0 : Option Int) = none ∨
      ∃ k, (some 0 : Option Int) = some k ∧ k ≤ 0) ∧
    add_time_log dbTask 3 1 (some 0) none "" =
      .error "Invalid duration provided (must be a positive integer)." :=
  ⟨Or.inr ⟨0, rfl, le_refl 0⟩,
    C7_add_time_log_invalid_duration dbTask 3 1 (some 0) none ""
      (Or.inr ⟨0, rfl, le_refl 0⟩)⟩

/-- C10: when no Time Log document references the given task id — whether
the Task never existed or has been deleted — `get_total_logged_time_for_task`
returns the integer `0` (the empty-aggregation branch) rather than failing
or returning an absent value. -/
theorem C10_total_zero_when_no_logs (db : DB) (tid : Nat)
    (h : ∀ l ∈ db.time_logs, l.2.task_id ≠ tid) :
    get_total_logged_time_for_task db tid = 0 := by
  rw [get_total_eq_logsSumL]
  exact logsSumL_eq_zero db.time_logs tid h

/-- Witness for C10: `dbCascade` has logs only for Task 1, so the total
for the never-created id 5 is `0`. -/
theorem C10_witness :
    (∀ l ∈ dbCascade.time_logs, l.2.task_id ≠ 5) ∧
    get_total_logged_time_for_task dbCascade 5 = 0 :=
  ⟨by decide, C10_total_zero_when_no_logs dbCascade 5 (by decide)⟩

/-- `findDoc` after replacing the entries with key `tid` by a fixed
document (the `$set` write of `update_one`). -/
theorem findDoc_map_setDoc {α : Type} (tid tid' : Nat) (d : α)
    (l : List (Nat × α)) :
    findDoc tid' (l.map (fun q => if q.1 = tid then (q.1, d) else q)) =
      if tid' = tid then (findDoc tid l).map (fun _ => d) else findDoc tid' l :=
  findDoc_map_updIf tid tid' (fun _ => d) l

/-- C3: `delete_project` performs its writes in order — collect the ids of
the project's Tasks, delete the Time Logs referencing them, delete those
Tasks, delete the Project document (the order the definition mirrors) —
and afterwards no Task of the project, no Time Log of such a Task and no
Project document with that id remains; the returned Boolean is `true`
exactly when the Project document was present, i.e. was removed. -/
theorem C3_delete_project_cascade (db : DB) (pid : Nat) :
    (∀ t ∈ (delete_project db pid).1.tasks, t.2.project_id ≠ pid) ∧
    (∀ l ∈ (delete_project db pid).1.time_logs, ∀ t ∈ db.tasks,
      t.2.project_id = pid → l.2.task_id ≠ t.1) ∧
    (∀ p ∈ (delete_project db pid).1.projects, p.1 ≠ pid) ∧
    (delete_project db pid).2 = db.projects.any (fun p => p.1 = pid) := by
  by_cases hemp :
      ((db.tasks.filter (fun t => t.2.project_id = pid)).map (·.1)).isEmpty = true
  · have h0 : (db.tasks.filter (fun t => t.2.project_id = pid)).map (·.1) = [] :=
      List.isEmpty_iff.mp hemp
    have h1 : db.tasks.filter (fun t => t.2.project_id = pid) = [] :=
      List.map_eq_nil_iff.mp h0
    rw [List.filter_eq_nil_iff] at h1
    have hdp : delete_project db pid =
        ({ db with projects := db.projects.filter (fun p => ¬ p.1 = pid) },
         db.projects.any (fun p => p.1 = pid)) := by
      simp [delete_project, hemp]
    rw [hdp]
    refine ⟨?_, ?_, ?_, rfl⟩
    · intro t ht hpid
      exact h1 t ht (by simpa using hpid)
    · intro l hl t ht hpid
      exact absurd (by simpa using hpid) (h1 t ht)
    · intro p hp
      have h2 := (List.mem_filter.mp hp).2
      simpa using h2
  · have hdp : delete_project db pid =
        ({ projects := db.projects.filter (fun p => ¬ p.1 = pid),
           tasks := db.tasks.filter (fun t => ¬ t.2.project_id = pid),
           time_logs := db.time_logs.filter (fun l =>
             ¬ ((db.tasks.filter (fun t => t.2.project_id = pid)).map
               (·.1)).contains l.2.task_id),
           nextId := db.nextId },
         db.projects.any (fun p => p.1 = pid)) := by
      simp [delete_project, hemp]
    rw [hdp]
    refine ⟨?_, ?_, ?_, rfl⟩
    · intro t ht hpid
      have h2 := (List.mem_filter.mp ht).2
      simp at h2
      exact h2 hpid
    · intro l hl t ht hpid heq
      have h2 := (List.mem_filter.mp hl).2
      simp at h2
      exact h2 t.2 (by rw [heq]; exact ht) hpid
    · intro p hp
      have h2 := (List.mem_filter.mp hp).2
      simpa using h2

/-- Witness for C3: the cascade on `dbCascade`'s Project 0 reports removal
exactly as the Project collection contains id 0. -/
theorem C3_witness :
    (delete_project dbCascade 0).2 = dbCascade.projects.any (fun p => p.1 = 0) :=
  (C3_delete_project_cascade dbCascade 0).2.2.2

/-- C4 (counterexample): the store-level `add_project` performs no
validation: called with an empty name it succeeds and inserts a Project
document with `name = ""` instead of failing with `ValidationError` and
creating nothing. -/
theorem C4_counterexample :
    add_project dbEmpty 0 "" "" "Planning" none none =
      ({ projects := [(0, projEmptyName)], tasks := [], time_logs := [],
         nextId := 1 }, 0) := by
  rfl

/-- C4 (amended): the empty-name and date-ordering validation lives in the
web route, not in the store: `route_add_project` rejects an empty or
whitespace-only name, and a date pair with `end_date < start_date`,
creating no document and leaving the database unchanged; the store
function `add_project` itself inserts unconditionally. -/
theorem C4_route_add_project_rejects (db : DB) (now : Nat)
    (nm ds st : String) (sd ed : Option Int)
    (h : pyStrip nm = "" ∨ ∃ s e, sd = some s ∧ ed = some e ∧ e < s) :
    route_add_project db now nm ds st sd ed = (db, none) := by
  rcases h with h | ⟨s, e, rfl, rfl, hlt⟩
  · simp [route_add_project, h]
  · by_cases htrim : pyStrip nm = ""
    · simp [route_add_project, htrim]
    · simp [route_add_project, htrim, hlt]

/-- Witness for C4's amended theorem: a whitespace-only name is rejected
by the route and the database is unchanged. -/
theorem C4_witness :
    (pyStrip " " = "" ∨
      ∃ s e, (none : Option Int) = some s ∧ (none : Option Int) = some e ∧ e < s) ∧
    route_add_project dbProj 3 " " "d" "Planning" none none = (dbProj, none) :=
  ⟨Or.inl (by decide),
    C4_route_add_project_rejects dbProj 3 " " "d" "Planning" none none
      (Or.inl (by decide))⟩

/-- C5 (counterexample): a `partial_fields` dict that carries a
`total_logged_minutes` key does change the stored aggregate through
`update_task`: the code passes the whole dict to `$set`, so the Task's
stored `total_logged_minutes` goes from 0 to 99. -/
theorem C5_counterexample :
    (findDoc 1 dbTask.tasks).map (fun t => t.total_logged_minutes) = some 0 ∧
    (findDoc 1 (update_task dbTask 7 1
        { total_logged_minutes := some 99 }).1.tasks).map
      (fun t => t.total_logged_minutes) = some 99 := by
  exact ⟨rfl, rfl⟩

/-- C5 (amended): `update_task` writes exactly the keys present in the
dict — `total_logged_minutes` included when supplied, as the counterexample
shows — so every Task's stored aggregate is unchanged precisely when the
dict does not carry the `total_logged_minutes` key (which no caller in the
repository ever supplies). -/
theorem C5_update_task_preserves_total (db : DB) (now tid tid' : Nat)
    (u : TaskUpdates) (h : u.total_logged_minutes = none) :
    (findDoc tid' (update_task db now tid u).1.tasks).map
        (fun t => t.total_logged_minutes) =
      (findDoc tid' db.tasks).map (fun t => t.total_logged_minutes) := by
  unfold update_task
  cases hf : findDoc tid db.tasks with
  | none => rfl
  | some t =>
    show (findDoc tid' (db.tasks.map (fun q =>
        if q.1 = tid then (q.1, applyTaskUpdates t u now) else q))).map
        (fun x => x.total_logged_minutes) =
      (findDoc tid' db.tasks).map (fun x => x.total_logged_minutes)
    rw [findDoc_map_setDoc tid tid' (applyTaskUpdates t u now) db.tasks]
    by_cases h2 : tid' = tid
    · subst h2
      rw [if_pos rfl, hf]
      simp [applyTaskUpdates, h]
    · rw [if_neg h2]

/-- Witness for C5's amended theorem: renaming Task 1 leaves its stored
aggregate untouched. -/
theorem C5_witness :
    ({ name := some "X" } : TaskUpdates).total_logged_minutes = none ∧
    (findDoc 1 (update_task dbTask 7 1 { name := some "X" }).1.tasks).map
        (fun t => t.total_logged_minutes) =
      (findDoc 1 dbTask.tasks).map (fun t => t.total_logged_minutes) :=
  ⟨rfl, C5_update_task_preserves_total dbTask 7 1 1 { name := some "X" } rfl⟩

/-- C8 (counterexample): updating an existing Project with an empty
`partial_fields` dict — every supplied field trivially equals the stored
value — returns `true`, not `false` as the claim requires, because the
unconditional `updated_at` refresh (now = 5 against stored 0) modifies the
document and `modified_count` counts it. -/
theorem C8_counterexample :
    (update_project dbProj 5 0 {}).2 = true := by decide

/-- C8 (amended): `update_project` applies exactly the fields present in
`partial_fields` and always refreshes `updated_at`; it returns `true` iff
the document exists and the written document differs from the stored one —
a criterion that includes the refreshed `updated_at`, so an update whose
caller-supplied fields all equal the stored values still returns `true`
whenever the new timestamp differs from the stored `updated_at`. -/
theorem C8_update_project_modified (db : DB) (now pid : Nat)
    (u : ProjectUpdates) (p : ProjectDoc)
    (hp : findDoc pid db.projects = some p) :
    (update_project db now pid u).2 = decide (applyProjectUpdates p u now ≠ p) ∧
    findDoc pid (update_project db now pid u).1.projects =
      some (applyProjectUpdates p u now) := by
  unfold update_project
  rw [hp]
  refine ⟨rfl, ?_⟩
  show findDoc pid (db.projects.map (fun q =>
      if q.1 = pid then (q.1, applyProjectUpdates p u now) else q)) =
    some (applyProjectUpdates p u now)
  rw [findDoc_map_setDoc pid pid (applyProjectUpdates p u now) db.projects,
    if_pos rfl, hp]
  rfl

/-- Witness for C8's amended theorem: the empty update on Project 0 at
time 5 returns exactly whether the refreshed document differs. -/
theorem C8_witness :
    findDoc 0 dbProj.projects = some projLaunch ∧
    ((update_project dbProj 5 0 {}).2 =
        decide (applyProjectUpdates projLaunch {} 5 ≠ projLaunch) ∧
      findDoc 0 (update_project dbProj 5 0 {}).1.projects =
        some (applyProjectUpdates projLaunch {} 5)) :=
  ⟨rfl, C8_update_project_modified dbProj 5 0 {} projLaunch rfl⟩

/-- C9 (counterexample): with no connection ever established and a
reachable server — the lazy connect the claim requires would succeed —
`get_db` still raises `ConnectionError`: the reconnection attempt in the
source is commented out. -/
theorem C9_counterexample :
    connect_db true connNone = .ok { client := some (), db := some () } ∧
    get_db connNone =
      .error "Database is not connected. Check initial connection logs." := by
  exact ⟨rfl, rfl⟩

/-- C9 (amended): `get_db` performs no lazy connect: whenever `_db` is
`None` it raises `ConnectionError` unconditionally — even on a state where
`connect_db` would succeed — and when a connection exists it returns the
handle without error. -/
theorem C9_get_db_no_lazy_connect (s : ConnState) (canConnect : Bool)
    (hcan : canConnect = true) (hclient : s.client = none)
    (hdb : s.db = none) :
    connect_db canConnect s = .ok { client := some (), db := some () } ∧
    get_db s =
      .error "Database is not connected. Check initial connection logs." ∧
    (∀ c : Option Unit, get_db { client := c, db := some () } = .ok ()) := by
  subst hcan
  obtain ⟨c, d⟩ := s
  simp only at hclient hdb
  subst hclient
  subst hdb
  exact ⟨rfl, rfl, fun c => rfl⟩

/-- Witness for C9's amended theorem at the fresh module state. -/
theorem C9_witness :
    (connect_db true connNone = .ok { client := some (), db := some () } ∧
      get_db connNone =
        .error "Database is not connected. Check initial connection logs." ∧
      (∀ c : Option Unit, get_db { client := c, db := some () } = .ok ())) :=
  C9_get_db_no_lazy_connect connNone true rfl rfl rfl

end PMApp
